import Mathlib

/-!
# Verification of the Bear-notes MCP server

Shallow embedding of the repository's three modules:

* `database.py` — read-only SQLite queries over the Bear note store
  (`get_notes`, `get_notes_like`, `get_tags`, `get_note_by_id`,
  `get_notes_by_tag`, `get_archived_notes`);
* `bear_url.py` — construction of `bear://x-callback-url/...` command URIs
  and their dispatch through the macOS `open` launcher
  (`create_note`, `add_text`, `add_tags_to_note`, `trash_note`, `open_note`,
  `search_in_bear`, `archive_note`, `unarchive_note`, `open_tag`, `rename_tag`);
* `server.py` — the MCP tool dispatcher `call_tool`.

External effects (SQLite connections, query execution, subprocess spawns)
are made observable as an explicit event trace; the environment (store
contents, whether a query raises, whether the launcher succeeds) is a
`World` record threaded through every effectful function.  Each executor
additionally records a `callFn` entry event so that "the executor was never
invoked" is expressible as an empty trace.

The MCP error path (a `raise` caught by `call_tool`'s `except` block, which
returns a `TextContent` whose text is `"Error: " ++ msg`) is modelled by the
`Except.error msg` branch of the dispatcher's result.
-/

namespace McpBear

/-- ASCII lower-casing, the case folding used by SQLite's default `LIKE`
(`A`–`Z` fold to `a`–`z`; all other code points compare exactly). -/
def lowerA (c : Char) : Char :=
  if 'A' ≤ c ∧ c ≤ 'Z' then Char.ofNat (c.toNat + 32) else c

/-- SQLite `LIKE` pattern matching (`text LIKE pattern` with no `ESCAPE`
clause): `%` matches any sequence, `_` matches any single character, and
every other pattern character matches ASCII-case-insensitively. -/
def likeM (p ts : List Char) : Bool :=
  match p with
  | [] => ts.isEmpty
  | c :: ps =>
    if c = '%' then
      likeM ps ts || (match ts with | [] => false | _ :: ts2 => likeM (c :: ps) ts2)
    else if c = '_' then
      match ts with | [] => false | _ :: ts2 => likeM ps ts2
    else
      match ts with
      | [] => false
      | t :: ts2 => (lowerA c == lowerA t) && likeM ps ts2
termination_by (ts.length, p.length)

/-- ASCII-case-insensitive prefix test on character lists. -/
def isPrefixCI : List Char → List Char → Bool
  | [], _ => true
  | _ :: _, [] => false
  | x :: xs, y :: ys => (lowerA x == lowerA y) && isPrefixCI xs ys

/-- ASCII-case-insensitive infix (substring) test on character lists. -/
def isInfixCI (needle : List Char) : List Char → Bool
  | [] => isPrefixCI needle []
  | h :: rest => isPrefixCI needle (h :: rest) || isInfixCI needle rest

/-- Exact (case-sensitive) prefix test on character lists. -/
def isPrefixB : List Char → List Char → Bool
  | [], _ => true
  | _ :: _, [] => false
  | x :: xs, y :: ys => (x == y) && isPrefixB xs ys

/-- Exact (case-sensitive) infix test on character lists. -/
def isInfixB (needle : List Char) : List Char → Bool
  | [] => isPrefixB needle []
  | h :: rest => isPrefixB needle (h :: rest) || isInfixB needle rest

/-- `containsStrB hay needle`: `needle` occurs in `hay` as an exact
substring. -/
def containsStrB (hay needle : String) : Bool :=
  isInfixB needle.toList hay.toList

/-- `ciContains s x`: `x` occurs in `s` as an ASCII-case-insensitive
substring. -/
def ciContains (s x : String) : Bool :=
  isInfixCI x.toList s.toList

/-- Case-insensitive containment lifted to a nullable column: a SQL `NULL`
field matches no `LIKE` pattern, hence contains nothing. -/
def ciContainsOpt : Option String → String → Bool
  | none, _ => false
  | some s, x => ciContains s x

/-- Exact containment lifted to a nullable column. -/
def litContainsOpt : Option String → String → Bool
  | none, _ => false
  | some s, x => containsStrB s x

/-- One row of the `ZSFNOTE` relation (the columns the repository reads). -/
structure NoteRow where
  id : String
  title : Option String
  text : Option String
  subtitle : Option String
  creationDate : Int
  modificationDate : Int
  archived : Bool
deriving DecidableEq

/-- A Python value, as handed around by the server (argument maps,
result dictionaries). -/
inductive PyVal where
  | str (s : String)
  | int (n : Int)
  | bool (b : Bool)
  | none
  | list (xs : List PyVal)
  | dict (kvs : List (String × PyVal))

/-- Observable external effects, plus executor-entry instrumentation. -/
inductive Event where
  | callFn (fname : String)
  | openConn
  | execQuery
  | closeConn
  | spawn (url : String)

/-- Outcome of one `subprocess.run(["open", url], check=True)` invocation. -/
inductive LaunchOutcome where
  | ok
  | exitErr (msg : String)
  | spawnFail (msg : String)

/-- The environment a call runs against: the store's `ZSFNOTE` rows, its
`ZSFNOTETAG` titles, whether query execution raises, and how the launcher
behaves. -/
structure World where
  store : List NoteRow
  tags : List String
  dbErr : Option String
  launch : LaunchOutcome

/-! ## Data Reader (`database.py`) -/

/-- A nullable text column as a Python value (`NULL` row values come back
as Python `None`). -/
def optStrVal : Option String → PyVal
  | Option.none => .none
  | some s => .str s

/-- The note dictionary built by the list-returning readers (`get_notes`,
`get_notes_like`, `get_notes_by_tag`, `get_archived_notes`): five keys, no
modification date and no archived flag. -/
def briefDict (n : NoteRow) : PyVal :=
  .dict [("ZCREATIONDATE", .int n.creationDate),
         ("ZSUBTITLE", optStrVal n.subtitle),
         ("ZTEXT", optStrVal n.text),
         ("ZTITLE", optStrVal n.title),
         ("ZUNIQUEIDENTIFIER", .str n.id)]

/-- The note dictionary built by `get_note_by_id`: the five brief keys plus
`ZMODIFICATIONDATE` and `ZARCHIVED`. -/
def fullDict (n : NoteRow) : PyVal :=
  .dict [("ZCREATIONDATE", .int n.creationDate),
         ("ZMODIFICATIONDATE", .int n.modificationDate),
         ("ZARCHIVED", .int (if n.archived then 1 else 0)),
         ("ZSUBTITLE", optStrVal n.subtitle),
         ("ZTEXT", optStrVal n.text),
         ("ZTITLE", optStrVal n.title),
         ("ZUNIQUEIDENTIFIER", .str n.id)]

/-- Lookup of a key in a `PyVal.dict`. -/
def dictGet (v : PyVal) (k : String) : Option PyVal :=
  match v with
  | .dict kvs => (kvs.find? (fun kv => kv.1 == k)).map (fun kv => kv.2)
  | _ => Option.none

/-- `column LIKE pattern` on a nullable column: `NULL LIKE p` is `NULL`,
which the `WHERE` clause treats as not matching. -/
def likeOpt (pat : List Char) : Option String → Bool
  | Option.none => false
  | some s => likeM pat s.toList

/-- The pattern `f"%{x}%"` the repository interpolates around a search
string. -/
def likePat (x : String) : List Char :=
  '%' :: (x.toList ++ ['%'])

/-- Common shape of every reader in `database.py`: connect, then
`try: execute and map rows  finally: conn.close()`.  The `finally` is what
puts `closeConn` on the trace on both the success and the raising path. -/
def withBearDb (fname : String) (w : World) (q : World → α) :
    Except String α × List Event :=
  match w.dbErr with
  | some e => (.error e, [.callFn fname, .openConn, .closeConn])
  | Option.none => (.ok (q w), [.callFn fname, .openConn, .execQuery, .closeConn])

/-- `get_notes()`: `SELECT * FROM ZSFNOTE WHERE ZARCHIVED=0`. -/
def get_notesE (w : World) : Except String (List PyVal) × List Event :=
  withBearDb "get_notes" w
    (fun w => ((w.store.filter (fun n => !n.archived)).map briefDict))

/-- `get_notes_like(search_text)`:
`SELECT * FROM ZSFNOTE WHERE ZARCHIVED=0 AND (ZTEXT LIKE ? OR ZTITLE LIKE ?)`
with the bound pattern `f"%{search_text}%"`. -/
def get_notes_likeE (w : World) (search_text : String) :
    Except String (List PyVal) × List Event :=
  withBearDb "get_notes_like" w
    (fun w => ((w.store.filter (fun n =>
      !n.archived && (likeOpt (likePat search_text) n.text
        || likeOpt (likePat search_text) n.title))).map briefDict))

/-- `get_tags()`: `SELECT * FROM ZSFNOTETAG`, projected to `ZTITLE`. -/
def get_tagsE (w : World) : Except String (List String) × List Event :=
  withBearDb "get_tags" w (fun w => w.tags)

/-- `get_note_by_id(note_id)`:
`SELECT * FROM ZSFNOTE WHERE ZUNIQUEIDENTIFIER=?` followed by `fetchone()`
(the first matching row, archived or not), else `None`. -/
def get_note_by_idE (w : World) (note_id : String) :
    Except String (Option PyVal) × List Event :=
  withBearDb "get_note_by_id" w
    (fun w => (w.store.find? (fun n => n.id == note_id)).map fullDict)

/-- `get_notes_by_tag(tag)`:
`SELECT * FROM ZSFNOTE WHERE ZARCHIVED=0 AND ZTEXT LIKE ?` with the bound
pattern `f"%#{tag}%"`. -/
def get_notes_by_tagE (w : World) (tag : String) :
    Except String (List PyVal) × List Event :=
  withBearDb "get_notes_by_tag" w
    (fun w => ((w.store.filter (fun n =>
      !n.archived && likeOpt (likePat ("#" ++ tag)) n.text)).map briefDict))

/-- `get_archived_notes()`: `SELECT * FROM ZSFNOTE WHERE ZARCHIVED=1`. -/
def get_archived_notesE (w : World) : Except String (List PyVal) × List Event :=
  withBearDb "get_archived_notes" w
    (fun w => ((w.store.filter (fun n => n.archived)).map briefDict))

/-! ## Command Builder + Launcher Adapter (`bear_url.py`)

`urllib.parse.urlencode(params)` with its defaults quotes every key and
value through `quote_plus`: characters in the unreserved set
`A-Z a-z 0-9 _ . - ~` pass through, a space becomes `+`, and every other
character is percent-encoded byte-wise over its UTF-8 encoding with
upper-case hex digits.  Pairs are joined `k=v` with `&`. -/

/-- Characters `quote_plus` leaves unescaped (its `safe` set is empty, so
exactly the always-safe unreserved characters remain). -/
def isUrlSafe (c : Char) : Bool :=
  ('a' ≤ c && c ≤ 'z') || ('A' ≤ c && c ≤ 'Z') || ('0' ≤ c && c ≤ '9')
    || c == '_' || c == '.' || c == '-' || c == '~'

/-- Upper-case hexadecimal digit (for `n < 16`). -/
def hexDigit (n : Nat) : Char :=
  if n < 10 then Char.ofNat ('0'.toNat + n) else Char.ofNat ('A'.toNat + (n - 10))

/-- Numeric value of a hexadecimal digit. -/
def hexVal (c : Char) : Nat :=
  if '0' ≤ c ∧ c ≤ '9' then c.toNat - '0'.toNat
  else if 'A' ≤ c ∧ c ≤ 'F' then c.toNat - 'A'.toNat + 10
  else if 'a' ≤ c ∧ c ≤ 'f' then c.toNat - 'a'.toNat + 10
  else 0

/-- `%XX` escape of one byte. -/
def pctByte (b : Nat) : List Char :=
  ['%', hexDigit (b / 16), hexDigit (b % 16)]

/-- UTF-8 encoding of one code point. -/
def utf8Bytes (c : Char) : List Nat :=
  let n := c.toNat
  if n < 0x80 then [n]
  else if n < 0x800 then [0xC0 + n / 64, 0x80 + n % 64]
  else if n < 0x10000 then [0xE0 + n / 4096, 0x80 + (n / 64) % 64, 0x80 + n % 64]
  else [0xF0 + n / 262144, 0x80 + (n / 4096) % 64, 0x80 + (n / 64) % 64, 0x80 + n % 64]

/-- `quote_plus` on one character. -/
def quotePlusChar (c : Char) : List Char :=
  if isUrlSafe c then [c]
  else if c = ' ' then ['+']
  else ((utf8Bytes c).map pctByte).flatten

/-- `urllib.parse.quote_plus`. -/
def quotePlus (s : String) : String :=
  ⟨(s.toList.map quotePlusChar).flatten⟩

/-- `urllib.parse.urlencode` over an insertion-ordered parameter list. -/
def urlencode (ps : List (String × String)) : String :=
  String.intercalate "&" (ps.map (fun kv => quotePlus kv.1 ++ "=" ++ quotePlus kv.2))

/-! ### A decoder, used only to state round-trip properties. -/

/-- Percent-decoding of a query token to its byte sequence (`+` is a
space; unescaped characters contribute their UTF-8 bytes). -/
def pctDecodeBytes : List Char → List Nat
  | [] => []
  | '%' :: h1 :: h2 :: rest => (hexVal h1 * 16 + hexVal h2) :: pctDecodeBytes rest
  | '+' :: rest => 32 :: pctDecodeBytes rest
  | c :: rest => utf8Bytes c ++ pctDecodeBytes rest

/-- UTF-8 decoding of a byte sequence (malformed tails are dropped). -/
def utf8Decode : List Nat → List Char
  | [] => []
  | b1 :: rest =>
    if b1 < 0x80 then Char.ofNat b1 :: utf8Decode rest
    else
      match rest with
      | [] => []
      | b2 :: rest2 =>
        if b1 < 0xE0 then Char.ofNat ((b1 - 0xC0) * 64 + (b2 - 0x80)) :: utf8Decode rest2
        else
          match rest2 with
          | [] => []
          | b3 :: rest3 =>
            if b1 < 0xF0 then
              Char.ofNat ((b1 - 0xE0) * 4096 + (b2 - 0x80) * 64 + (b3 - 0x80)) :: utf8Decode rest3
            else
              match rest3 with
              | [] => []
              | b4 :: rest4 =>
                Char.ofNat ((b1 - 0xF0) * 262144 + (b2 - 0x80) * 4096
                  + (b3 - 0x80) * 64 + (b4 - 0x80)) :: utf8Decode rest4

/-- Percent-decoding of a query token to a string. -/
def pctDecode (s : String) : String :=
  ⟨utf8Decode (pctDecodeBytes s.toList)⟩

/-- Split a character list at every occurrence of a separator. -/
def splitOnChar (sep : Char) : List Char → List (List Char)
  | [] => [[]]
  | c :: rest =>
    if c = sep then [] :: splitOnChar sep rest
    else
      match splitOnChar sep rest with
      | [] => [[c]]
      | g :: gs => (c :: g) :: gs

/-- Split a `k=v` piece at its first `=`. -/
def splitKV : List Char → List Char × List Char
  | [] => ([], [])
  | c :: rest =>
    if c = '=' then ([], rest)
    else
      let kv := splitKV rest
      (c :: kv.1, kv.2)

/-- Decode a query string into its parameter pairs. -/
def parseQuery (q : String) : List (String × String) :=
  if q = "" then []
  else (splitOnChar '&' q.toList).map (fun p =>
    (pctDecode ⟨(splitKV p).1⟩, pctDecode ⟨(splitKV p).2⟩))

/-- The characters of a URI after its first `?`. -/
def afterQuestion : List Char → List Char
  | [] => []
  | c :: rest => if c = '?' then rest else afterQuestion rest

/-- The part of a URI after its first `?`. -/
def queryOf (url : String) : String :=
  ⟨afterQuestion url.toList⟩

/-! ### The command builders -/

/-- The result dictionary of `bear_url.py` operations:
`{"success": True, "message": …}` or `{"success": False, "error": …}`. -/
inductive CmdResult where
  | success (message : String)
  | failure (error : String)
deriving DecidableEq

/-- `_open_bear_url(url)`: run `open url` as a subprocess; normal exit is
success, `CalledProcessError` (the process ran and exited non-zero) keeps
its message, any other exception (nothing was spawned) is wrapped. -/
def openBearUrl (w : World) (url : String) : CmdResult × List Event :=
  match w.launch with
  | .ok => (.success "Command sent to Bear successfully", [.callFn "open_bear_url", .spawn url])
  | .exitErr e => (.failure e, [.callFn "open_bear_url", .spawn url])
  | .spawnFail e => (.failure ("Failed to open Bear URL: " ++ e), [.callFn "open_bear_url"])

/-- `if title:` — a present, non-empty string contributes the pair. -/
def optParam (key : String) : Option String → List (String × String)
  | some v => if v = "" then [] else [(key, v)]
  | Option.none => []

/-- `if tags:` — a present, non-empty list contributes the comma-join. -/
def listParam (key : String) : Option (List String) → List (String × String)
  | some l => if l = [] then [] else [(key, String.intercalate "," l)]
  | Option.none => []

/-- `if flag:` — a boolean serializes as `yes` only when true. -/
def flagParam (key : String) (b : Bool) : List (String × String) :=
  if b then [(key, "yes")] else []

/-- The insertion-ordered parameter dict of `create_note`. -/
def createNoteParams (title text : Option String) (tags : Option (List String))
    (pin open_note : Bool) : List (String × String) :=
  optParam "title" title ++ optParam "text" text ++ listParam "tags" tags
    ++ flagParam "pin" pin ++ flagParam "open_note" open_note

/-- The URI `create_note` builds. -/
def createNoteUrl (title text : Option String) (tags : Option (List String))
    (pin open_note : Bool) : String :=
  "bear://x-callback-url/create?" ++ urlencode (createNoteParams title text tags pin open_note)

/-- `create_note(...)`. -/
def create_noteE (w : World) (title text : Option String)
    (tags : Option (List String)) (pin open_note : Bool) : CmdResult × List Event :=
  let r := openBearUrl w (createNoteUrl title text tags pin open_note)
  (r.1, .callFn "create_note" :: r.2)

/-- The insertion-ordered parameter dict of `add_text`. -/
def addTextParams (note_id text mode : String) (open_note : Bool) :
    List (String × String) :=
  [("id", note_id), ("text", text), ("mode", mode)] ++ flagParam "open_note" open_note

/-- The URI `add_text` builds. -/
def addTextUrl (note_id text mode : String) (open_note : Bool) : String :=
  "bear://x-callback-url/add-text?" ++ urlencode (addTextParams note_id text mode open_note)

/-- `add_text(...)`: the mode is checked against the three allowed values
before any URI is built; on failure the launcher is never reached. -/
def add_textE (w : World) (note_id text mode : String) (open_note : Bool) :
    CmdResult × List Event :=
  if mode ∈ (["append", "prepend", "replace"] : List String) then
    let r := openBearUrl w (addTextUrl note_id text mode open_note)
    (r.1, .callFn "add_text" :: r.2)
  else
    (.failure ("Invalid mode: " ++ mode ++ ". Use append, prepend, or replace"),
      [.callFn "add_text"])

/-- `add_tags_to_note(...)`. -/
def add_tags_to_noteE (w : World) (note_id : String) (tags : List String) :
    CmdResult × List Event :=
  let r := openBearUrl w
    ("bear://x-callback-url/add-tags?"
      ++ urlencode [("id", note_id), ("tags", String.intercalate "," tags)])
  (r.1, .callFn "add_tags_to_note" :: r.2)

/-- `trash_note(...)`. -/
def trash_noteE (w : World) (note_id : String) : CmdResult × List Event :=
  let r := openBearUrl w ("bear://x-callback-url/trash?" ++ urlencode [("id", note_id)])
  (r.1, .callFn "trash_note" :: r.2)

/-- `open_note(...)`. -/
def open_noteE (w : World) (note_id : String) : CmdResult × List Event :=
  let r := openBearUrl w ("bear://x-callback-url/open-note?" ++ urlencode [("id", note_id)])
  (r.1, .callFn "open_note" :: r.2)

/-- `search_in_bear(...)`. -/
def search_in_bearE (w : World) (term : String) : CmdResult × List Event :=
  let r := openBearUrl w ("bear://x-callback-url/search?" ++ urlencode [("term", term)])
  (r.1, .callFn "search_in_bear" :: r.2)

/-- `archive_note(...)`. -/
def archive_noteE (w : World) (note_id : String) : CmdResult × List Event :=
  let r := openBearUrl w ("bear://x-callback-url/archive?" ++ urlencode [("id", note_id)])
  (r.1, .callFn "archive_note" :: r.2)

/-- `unarchive_note(...)`. -/
def unarchive_noteE (w : World) (note_id : String) : CmdResult × List Event :=
  let r := openBearUrl w ("bear://x-callback-url/unarchive?" ++ urlencode [("id", note_id)])
  (r.1, .callFn "unarchive_note" :: r.2)

/-- `open_tag(...)`. -/
def open_tagE (w : World) (tag : String) : CmdResult × List Event :=
  let r := openBearUrl w ("bear://x-callback-url/open-tag?" ++ urlencode [("name", tag)])
  (r.1, .callFn "open_tag" :: r.2)

/-- `rename_tag(...)`. -/
def rename_tagE (w : World) (old_tag new_tag : String) : CmdResult × List Event :=
  let r := openBearUrl w
    ("bear://x-callback-url/rename-tag?"
      ++ urlencode [("name", old_tag), ("new_name", new_tag)])
  (r.1, .callFn "rename_tag" :: r.2)

/-! ## Operation Registry & Dispatcher (`server.py`)

`call_tool(name, arguments)` is one `try` block: argument-shape errors are
`raise ValueError(...)` statements and the unknown-name fallthrough is
`raise ValueError(f"Unknown tool: {name}")`; the trailing `except` converts
any exception `e` into the single response `TextContent("Error: " + str(e))`.
We model the body's result as `Except String PyVal`: `.error msg` is the
caught-exception path (rendered as `"Error: " ++ msg`), `.ok payload` is the
`str(payload)` success text.  `arguments` is `Option ArgMap`: `Option.none`
models a non-dict `arguments` value.  Argument values are read under the
declared schema types (string / string list / boolean), which is the shape
the MCP front end delivers. -/

/-- A Python argument dict, insertion ordered. -/
abbrev ArgMap := List (String × PyVal)

/-- `key in arguments` on a maybe-dict (`isinstance(arguments, dict) and
key in arguments`). -/
def argHas (args : Option ArgMap) (k : String) : Bool :=
  match args with
  | some a => a.any (fun kv => kv.1 == k)
  | Option.none => false

/-- A value as the string the schema declares it to be. -/
def asStr : PyVal → String
  | .str s => s
  | _ => ""

/-- A value as the boolean the schema declares it to be. -/
def asBool : PyVal → Bool
  | .bool b => b
  | _ => false

/-- A value as the string list the schema declares it to be. -/
def asStrList : PyVal → List String
  | .list xs => xs.map asStr
  | _ => []

/-- `arguments[k]` (only used after the `k in arguments` guard). -/
def getArg (args : Option ArgMap) (k : String) : PyVal :=
  match args with
  | some a => (((a.find? (fun kv => kv.1 == k)).map (fun kv => kv.2))).getD .none
  | Option.none => .none

/-- `arguments.get(k)` as an optional string. -/
def getOptStr (a : ArgMap) (k : String) : Option String :=
  ((a.find? (fun kv => kv.1 == k)).map (fun kv => asStr kv.2))

/-- `arguments.get(k)` as an optional string list. -/
def getOptList (a : ArgMap) (k : String) : Option (List String) :=
  ((a.find? (fun kv => kv.1 == k)).map (fun kv => asStrList kv.2))

/-- `arguments.get(k, default)` as a boolean. -/
def getBoolD (a : ArgMap) (k : String) (d : Bool) : Bool :=
  match a.find? (fun kv => kv.1 == k) with
  | some kv => asBool kv.2
  | Option.none => d

/-- `arguments.get(k, default)` as a string. -/
def getStrD (a : ArgMap) (k : String) (d : String) : String :=
  match a.find? (fun kv => kv.1 == k) with
  | some kv => asStr kv.2
  | Option.none => d

/-- A `CmdResult` as the dict the server stringifies. -/
def cmdResultVal : CmdResult → PyVal
  | .success m => .dict [("success", .bool true), ("message", .str m)]
  | .failure e => .dict [("success", .bool false), ("error", .str e)]

/-- The 16 tool names `list_tools` exposes, in the dispatcher's order. -/
def toolNames : List String :=
  ["get_notes", "get_tags", "get_notes_like", "create_note", "add_text",
   "add_tags", "trash_note", "open_note", "search_bear", "get_note_by_id",
   "get_notes_by_tag", "get_archived_notes", "archive_note", "unarchive_note",
   "open_tag", "rename_tag"]

/-- The `required` list of each tool's `inputSchema` in `list_tools`
(empty for tools without required arguments and for unknown names). -/
def requiredArgs : String → List String
  | "get_notes_like" => ["like"]
  | "add_text" => ["note_id", "text"]
  | "add_tags" => ["note_id", "tags"]
  | "trash_note" => ["note_id"]
  | "open_note" => ["note_id"]
  | "search_bear" => ["term"]
  | "get_note_by_id" => ["note_id"]
  | "get_notes_by_tag" => ["tag"]
  | "archive_note" => ["note_id"]
  | "unarchive_note" => ["note_id"]
  | "open_tag" => ["tag"]
  | "rename_tag" => ["old_tag", "new_tag"]
  | _ => []

/-- `call_tool(name, arguments)`. -/
def call_tool (w : World) (name : String) (arguments : Option ArgMap) :
    Except String PyVal × List Event :=
  if name = "get_notes" then
    let r := get_notesE w
    (r.1.map (fun notes => .dict [("notes", .list notes)]), r.2)
  else if name = "get_tags" then
    let r := get_tagsE w
    (r.1.map (fun tags => .dict [("tags", .list (tags.map PyVal.str))]), r.2)
  else if name = "get_notes_like" then
    if argHas arguments "like" then
      let r := get_notes_likeE w (asStr (getArg arguments "like"))
      (r.1.map (fun notes => .dict [("notes", .list notes)]), r.2)
    else (.error "Missing required argument: like", [])
  else if name = "create_note" then
    match arguments with
    | some a =>
      let r := create_noteE w (getOptStr a "title") (getOptStr a "text")
        (getOptList a "tags") (getBoolD a "pin" false) (getBoolD a "open_note" false)
      (.ok (cmdResultVal r.1), r.2)
    | Option.none => (.error "Invalid arguments", [])
  else if name = "add_text" then
    if argHas arguments "note_id" && argHas arguments "text" then
      match arguments with
      | some a =>
        let r := add_textE w (asStr (getArg arguments "note_id"))
          (asStr (getArg arguments "text")) (getStrD a "mode" "append")
          (getBoolD a "open_note" false)
        (.ok (cmdResultVal r.1), r.2)
      | Option.none => (.error "Missing required arguments: note_id and text", [])
    else (.error "Missing required arguments: note_id and text", [])
  else if name = "add_tags" then
    if argHas arguments "note_id" && argHas arguments "tags" then
      let r := add_tags_to_noteE w (asStr (getArg arguments "note_id"))
        (asStrList (getArg arguments "tags"))
      (.ok (cmdResultVal r.1), r.2)
    else (.error "Missing required arguments: note_id and tags", [])
  else if name = "trash_note" then
    if argHas arguments "note_id" then
      let r := trash_noteE w (asStr (getArg arguments "note_id"))
      (.ok (cmdResultVal r.1), r.2)
    else (.error "Missing required argument: note_id", [])
  else if name = "open_note" then
    if argHas arguments "note_id" then
      let r := open_noteE w (asStr (getArg arguments "note_id"))
      (.ok (cmdResultVal r.1), r.2)
    else (.error "Missing required argument: note_id", [])
  else if name = "search_bear" then
    if argHas arguments "term" then
      let r := search_in_bearE w (asStr (getArg arguments "term"))
      (.ok (cmdResultVal r.1), r.2)
    else (.error "Missing required argument: term", [])
  else if name = "get_note_by_id" then
    if argHas arguments "note_id" then
      let r := get_note_by_idE w (asStr (getArg arguments "note_id"))
      (r.1.map (fun
        | some d => .dict [("note", d)]
        | Option.none => .dict [("error", .str "Note not found")]), r.2)
    else (.error "Missing required argument: note_id", [])
  else if name = "get_notes_by_tag" then
    if argHas arguments "tag" then
      let r := get_notes_by_tagE w (asStr (getArg arguments "tag"))
      (r.1.map (fun notes =>
        .dict [("notes", .list notes), ("count", .int notes.length)]), r.2)
    else (.error "Missing required argument: tag", [])
  else if name = "get_archived_notes" then
    let r := get_archived_notesE w
    (r.1.map (fun notes =>
      .dict [("notes", .list notes), ("count", .int notes.length)]), r.2)
  else if name = "archive_note" then
    if argHas arguments "note_id" then
      let r := archive_noteE w (asStr (getArg arguments "note_id"))
      (.ok (cmdResultVal r.1), r.2)
    else (.error "Missing required argument: note_id", [])
  else if name = "unarchive_note" then
    if argHas arguments "note_id" then
      let r := unarchive_noteE w (asStr (getArg arguments "note_id"))
      (.ok (cmdResultVal r.1), r.2)
    else (.error "Missing required argument: note_id", [])
  else if name = "open_tag" then
    if argHas arguments "tag" then
      let r := open_tagE w (asStr (getArg arguments "tag"))
      (.ok (cmdResultVal r.1), r.2)
    else (.error "Missing required argument: tag", [])
  else if name = "rename_tag" then
    if argHas arguments "old_tag" && argHas arguments "new_tag" then
      let r := rename_tagE w (asStr (getArg arguments "old_tag"))
        (asStr (getArg arguments "new_tag"))
      (.ok (cmdResultVal r.1), r.2)
    else (.error "Missing required arguments: old_tag and new_tag", [])
  else
    (.error ("Unknown tool: " ++ name), [])

/-! ## Observation helpers and concrete test fixtures -/

/-- The list payload of a reader result (empty on the raising path);
used only to state properties of successful reads. -/
def resultList : Except String (List α) → List α
  | .ok l => l
  | .error _ => []

/-- Recognizer for subprocess-spawn events. -/
def isSpawnEv : Event → Bool
  | .spawn _ => true
  | _ => false

/-- Recognizer for connection-open events. -/
def isOpenEv : Event → Bool
  | .openConn => true
  | _ => false

/-- Recognizer for connection-close events. -/
def isCloseEv : Event → Bool
  | .closeConn => true
  | _ => false

/-- A trace that opens exactly one store connection, closes exactly one,
closes it as its final action, and spawns no external process. -/
def scopedTrace (tr : List Event) : Prop :=
  tr.countP isOpenEv = 1 ∧ tr.countP isCloseEv = 1
    ∧ tr.getLast? = some .closeConn ∧ tr.all (fun e => !isSpawnEv e) = true

/-- Key lookup in a parameter dict. -/
def lookupParam (ps : List (String × String)) (k : String) : Option String :=
  (ps.find? (fun kv => kv.1 == k)).map (fun kv => kv.2)

/-- The per-operation missing-argument messages raised by `call_tool`. -/
def missingMsg : String → String
  | "get_notes_like" => "Missing required argument: like"
  | "add_text" => "Missing required arguments: note_id and text"
  | "add_tags" => "Missing required arguments: note_id and tags"
  | "trash_note" => "Missing required argument: note_id"
  | "open_note" => "Missing required argument: note_id"
  | "search_bear" => "Missing required argument: term"
  | "get_note_by_id" => "Missing required argument: note_id"
  | "get_notes_by_tag" => "Missing required argument: tag"
  | "archive_note" => "Missing required argument: note_id"
  | "unarchive_note" => "Missing required argument: note_id"
  | "open_tag" => "Missing required argument: tag"
  | "rename_tag" => "Missing required arguments: old_tag and new_tag"
  | _ => ""

/-- Fixture: a non-archived note whose body contains `B` (up to case). -/
def c3wNote1 : NoteRow := ⟨"w1", some "Hello", some "abc", Option.none, 0, 0, false⟩

/-- Fixture: an archived note with the same body. -/
def c3wNote2 : NoteRow := ⟨"w2", Option.none, some "abc", Option.none, 0, 0, true⟩

/-- Fixture world for the `get_notes_like` witness. -/
def c3World : World := ⟨[c3wNote1, c3wNote2], [], Option.none, .ok⟩

/-- Fixture: a note whose body `axb` matches the `LIKE` wildcard `_` in the
search string `a_b` without containing `a_b`. -/
def c3cexNote : NoteRow := ⟨"n1", Option.none, some "axb", Option.none, 0, 0, false⟩

/-- Fixture world for the `get_notes_like` counterexample. -/
def c3cexWorld : World := ⟨[c3cexNote], [], Option.none, .ok⟩

/-- Fixture: a non-archived note tagged `#work`. -/
def c4wNote : NoteRow := ⟨"w3", Option.none, some "#work log", Option.none, 0, 0, false⟩

/-- Fixture world for the `get_notes_by_tag` witness. -/
def c4World : World := ⟨[c4wNote], [], Option.none, .ok⟩

/-- Fixture: a note whose body `#TAG note` matches the pattern `%#tag%`
case-insensitively without containing the literal `#tag`. -/
def c4cexNote : NoteRow := ⟨"n2", Option.none, some "#TAG note", Option.none, 0, 0, false⟩

/-- Fixture world for the `get_notes_by_tag` counterexample. -/
def c4cexWorld : World := ⟨[c4cexNote], [], Option.none, .ok⟩

/-- Fixture: an archived note with distinct creation and modification
timestamps. -/
def c5Note : NoteRow := ⟨"id1", some "T", some "B", Option.none, 5, 7, true⟩

/-- Fixture world for the `get_note_by_id` witness. -/
def c5World : World := ⟨[c5Note], [], Option.none, .ok⟩

/-! ## Supporting lemmas: SQLite `LIKE` versus substring containment -/

theorem likeM_nil (ts : List Char) : likeM [] ts = ts.isEmpty := by
  simp [likeM]

theorem likeM_cons (c : Char) (ps ts : List Char) :
    likeM (c :: ps) ts =
      if c = '%' then
        likeM ps ts || (match ts with | [] => false | _ :: ts2 => likeM (c :: ps) ts2)
      else if c = '_' then
        match ts with | [] => false | _ :: ts2 => likeM ps ts2
      else
        match ts with
        | [] => false
        | t :: ts2 => (lowerA c == lowerA t) && likeM ps ts2 := by
  rw [likeM.eq_def]

/-- A trailing `%` matches any remaining text. -/
theorem likeM_one_pct (ts : List Char) : likeM ['%'] ts = true := by
  induction ts with
  | nil => simp [likeM]
  | cons t ts ih => rw [likeM_cons]; simp [likeM_nil, ih]

/-- A wildcard-free pattern followed by `%` matches exactly the texts it is
a case-insensitive prefix of. -/
theorem likeM_plain_head (xs : List Char)
    (hp : ∀ c ∈ xs, c ≠ '%' ∧ c ≠ '_') (ts : List Char) :
    likeM (xs ++ ['%']) ts = isPrefixCI xs ts := by
  induction xs generalizing ts with
  | nil => simp [likeM_one_pct, isPrefixCI]
  | cons x xs ih =>
    have hx := hp x (by simp)
    rw [List.cons_append, likeM_cons, if_neg hx.1, if_neg hx.2]
    cases ts with
    | nil => simp [isPrefixCI]
    | cons t ts2 =>
      simp only [isPrefixCI]
      rw [ih (fun c hc => hp c (by simp [hc]))]

/-- For a wildcard-free search string `xs`, the pattern `%xs%` matches
exactly the texts containing `xs` case-insensitively. -/
theorem likeM_infix (xs : List Char)
    (hp : ∀ c ∈ xs, c ≠ '%' ∧ c ≠ '_') (ts : List Char) :
    likeM ('%' :: (xs ++ ['%'])) ts = isInfixCI xs ts := by
  induction ts with
  | nil =>
    rw [likeM_cons, if_pos rfl]
    simp [likeM_plain_head xs hp, isInfixCI]
  | cons t ts2 ih =>
    rw [likeM_cons, if_pos rfl]
    simp only [isInfixCI]
    rw [likeM_plain_head xs hp, ih]

theorem isPrefixCI_iff (xs ts : List Char) :
    isPrefixCI xs ts = true ↔ xs.map lowerA <+: ts.map lowerA := by
  induction xs generalizing ts with
  | nil => simp [isPrefixCI]
  | cons x xs ih =>
    cases ts with
    | nil => simp [isPrefixCI]
    | cons t ts2 =>
      simp only [isPrefixCI, List.map_cons, List.cons_prefix_cons, Bool.and_eq_true,
        beq_iff_eq]
      rw [ih]

/-- `isInfixCI` decides case-insensitive substring containment. -/
theorem isInfixCI_iff (xs ts : List Char) :
    isInfixCI xs ts = true ↔ xs.map lowerA <:+: ts.map lowerA := by
  induction ts with
  | nil =>
    simp only [isInfixCI, List.map_nil, List.infix_nil]
    rw [isPrefixCI_iff]
    simp
  | cons t ts2 ih =>
    simp only [isInfixCI, Bool.or_eq_true, List.map_cons, List.infix_cons_iff]
    rw [isPrefixCI_iff, ih]
    simp

theorem isPrefixB_iff (xs ts : List Char) :
    isPrefixB xs ts = true ↔ xs <+: ts := by
  induction xs generalizing ts with
  | nil => simp [isPrefixB]
  | cons x xs ih =>
    cases ts with
    | nil => simp [isPrefixB]
    | cons t ts2 =>
      simp only [isPrefixB, List.cons_prefix_cons, Bool.and_eq_true, beq_iff_eq]
      rw [ih]

/-- `isInfixB` decides exact substring containment. -/
theorem isInfixB_iff (xs ts : List Char) :
    isInfixB xs ts = true ↔ xs <:+: ts := by
  induction ts with
  | nil =>
    simp only [isInfixB, List.infix_nil]
    rw [isPrefixB_iff]
    simp
  | cons t ts2 ih =>
    simp only [isInfixB, Bool.or_eq_true, List.infix_cons_iff]
    rw [isPrefixB_iff, ih]

theorem containsStrB_iff (hay needle : String) :
    containsStrB hay needle = true ↔ needle.toList <:+: hay.toList := by
  rw [containsStrB, isInfixB_iff]

theorem ciContains_iff (s x : String) :
    ciContains s x = true ↔ x.toList.map lowerA <:+: s.toList.map lowerA := by
  rw [ciContains, isInfixCI_iff]

theorem toList_append (s t : String) : (s ++ t).toList = s.toList ++ t.toList := rfl

theorem containsStrB_append_middle (a b c : String) :
    containsStrB (a ++ b ++ c) b = true := by
  rw [containsStrB_iff]
  exact ⟨a.toList, c.toList, by simp [toList_append]⟩

theorem containsStrB_of_right (a c needle : String)
    (h : containsStrB c needle = true) : containsStrB (a ++ c) needle = true := by
  rw [containsStrB_iff] at h ⊢
  rw [toList_append]
  exact h.trans ( List.IsSuffix.isInfix (List.suffix_append a.toList c.toList))

/-- The error message of an invalid `add_text` mode cites the offending
value and all three allowed values. -/
theorem invalid_mode_msg_cites (mode : String) :
    containsStrB ("Invalid mode: " ++ mode ++ ". Use append, prepend, or replace") mode = true
    ∧ containsStrB ("Invalid mode: " ++ mode ++ ". Use append, prepend, or replace") "append" = true
    ∧ containsStrB ("Invalid mode: " ++ mode ++ ". Use append, prepend, or replace") "prepend" = true
    ∧ containsStrB ("Invalid mode: " ++ mode ++ ". Use append, prepend, or replace") "replace" = true := by
  refine ⟨containsStrB_append_middle _ _ _, ?_, ?_, ?_⟩ <;>
    exact containsStrB_of_right _ ". Use append, prepend, or replace" _ (by decide)

/-- For a wildcard-free search string, the bound `LIKE` pattern coincides
with case-insensitive containment on a nullable column. -/
theorem likeOpt_plain (x : String) (hp : ∀ c ∈ x.toList, c ≠ '%' ∧ c ≠ '_')
    (f : Option String) : likeOpt (likePat x) f = ciContainsOpt f x := by
  cases f with
  | none => rfl
  | some s =>
    simp only [likeOpt, ciContainsOpt, ciContains, likePat]
    exact likeM_infix x.toList hp s.toList

/-- Every reader's trace is connection-scoped, on the success path and on
the raising path alike. -/
theorem withBearDb_scoped (fname : String) (w : World) (q : World → α) :
    scopedTrace (withBearDb fname w q).2 := by
  unfold withBearDb
  cases w.dbErr <;> simp [scopedTrace, isOpenEv, isCloseEv, isSpawnEv, List.countP_cons]

/-! ## The claims -/

/-- Claim C1: for every supported operation with required arguments, calling
the dispatcher with an argument map missing a required argument yields the
failure response (`Error: ` + message) naming that argument, with an empty
effect trace — so it is produced before any executor is entered and no
external process is spawned. -/
theorem call_tool_missing_arg (w : World) (name : String) (a : ArgMap) (req : String)
    (hreq : req ∈ requiredArgs name) (hmiss : argHas (some a) req = false) :
    call_tool w name (some a) = (.error (missingMsg name), [])
    ∧ containsStrB (missingMsg name) req = true := by
  unfold requiredArgs at hreq
  split at hreq <;>
    first
    | exact absurd hreq (List.not_mem_nil req)
    | · fin_cases hreq <;>
          refine ⟨by simp +decide [call_tool, hmiss, missingMsg], by decide⟩

/-- Witness for C1: `add_text` with `text` present but `note_id` missing. -/
theorem call_tool_missing_arg_witness :
    ("note_id" ∈ requiredArgs "add_text")
    ∧ (argHas (some [("text", PyVal.str "hi")]) "note_id" = false)
    ∧ call_tool ⟨[], [], Option.none, .ok⟩ "add_text" (some [("text", PyVal.str "hi")])
        = (.error (missingMsg "add_text"), [])
    ∧ containsStrB (missingMsg "add_text") "note_id" = true := by
  have h := call_tool_missing_arg ⟨[], [], Option.none, .ok⟩ "add_text"
    [("text", PyVal.str "hi")] "note_id" (by decide) (by decide)
  exact ⟨by decide, by decide, h.1, h.2⟩

/-- Claim C2: for every mode outside `append`/`prepend`/`replace`,
`add_text` returns a failure result citing the invalid value and the three
allowed values, and its trace holds no spawn and no launcher entry — the
launcher is not invoked. -/
theorem add_text_invalid_mode (w : World) (note_id text mode : String) (opn : Bool)
    (hm : mode ∉ (["append", "prepend", "replace"] : List String)) :
    add_textE w note_id text mode opn
      = (.failure ("Invalid mode: " ++ mode ++ ". Use append, prepend, or replace"),
         [.callFn "add_text"])
    ∧ containsStrB ("Invalid mode: " ++ mode ++ ". Use append, prepend, or replace") mode = true
    ∧ containsStrB ("Invalid mode: " ++ mode ++ ". Use append, prepend, or replace") "append" = true
    ∧ containsStrB ("Invalid mode: " ++ mode ++ ". Use append, prepend, or replace") "prepend" = true
    ∧ containsStrB ("Invalid mode: " ++ mode ++ ". Use append, prepend, or replace") "replace" = true := by
  have h := invalid_mode_msg_cites mode
  exact ⟨by rw [add_textE, if_neg hm], h.1, h.2.1, h.2.2.1, h.2.2.2⟩

/-- Witness for C2: `mode="bogus"`. -/
theorem add_text_invalid_mode_witness :
    ("bogus" ∉ (["append", "prepend", "replace"] : List String))
    ∧ add_textE ⟨[], [], Option.none, .ok⟩ "x" "y" "bogus" false
      = (.failure ("Invalid mode: " ++ "bogus" ++ ". Use append, prepend, or replace"),
         [.callFn "add_text"]) :=
  ⟨by decide,
   (add_text_invalid_mode ⟨[], [], Option.none, .ok⟩ "x" "y" "bogus" false (by decide)).1⟩

/-- Claim C3 (amended): provided the search string holds no SQL `LIKE`
wildcard (`%`, `_`), `get_notes_like` returns exactly the non-archived
notes whose body or title contains it as an ASCII-case-insensitive
substring; and for every search string, every returned entry comes from a
non-archived note. -/
theorem get_notes_like_spec (w : World) (x : String) (hdb : w.dbErr = Option.none) :
    ((∀ c ∈ x.toList, c ≠ '%' ∧ c ≠ '_') →
      (get_notes_likeE w x).1
        = .ok ((w.store.filter (fun n =>
            !n.archived && (ciContainsOpt n.text x || ciContainsOpt n.title x))).map briefDict))
    ∧ ∀ v ∈ resultList (get_notes_likeE w x).1,
        ∃ n ∈ w.store, n.archived = false ∧ v = briefDict n := by
  constructor
  · intro hp
    simp only [get_notes_likeE, withBearDb, hdb]
    have heq : w.store.filter (fun n =>
        !n.archived && (likeOpt (likePat x) n.text || likeOpt (likePat x) n.title))
      = w.store.filter (fun n =>
        !n.archived && (ciContainsOpt n.text x || ciContainsOpt n.title x)) :=
      List.filter_congr (fun n _ => by rw [likeOpt_plain x hp, likeOpt_plain x hp])
    rw [heq]
  · intro v hv
    simp only [get_notes_likeE, withBearDb, hdb, resultList] at hv
    obtain ⟨n, hn, rfl⟩ := List.mem_map.mp hv
    obtain ⟨hnmem, hfilt⟩ := List.mem_filter.mp hn
    refine ⟨n, hnmem, ?_, rfl⟩
    have h2 := (Bool.and_eq_true _ _ |>.mp hfilt).1
    simpa using h2

/-- Witness for C3: the search string `B` finds the non-archived note with
body `abc` and skips the archived one. -/
theorem get_notes_like_spec_witness :
    c3World.dbErr = Option.none
    ∧ (∀ c ∈ "B".toList, c ≠ '%' ∧ c ≠ '_')
    ∧ (get_notes_likeE c3World "B").1 = .ok [briefDict c3wNote1] := by
  refine ⟨rfl, by decide, ?_⟩
  have h := (get_notes_like_spec c3World "B" rfl).1 (by decide)
  rw [h]
  rfl

/-- Counterexample for C3 as stated: searching for `a_b` returns the note
with body `axb` (SQL `LIKE` reads `_` as a single-character wildcard),
which does not contain `a_b` as a substring, case-insensitively or
otherwise. -/
theorem get_notes_like_cex :
    ¬ ((get_notes_likeE c3cexWorld "a_b").1
      = .ok ((c3cexWorld.store.filter (fun n =>
          !n.archived && (ciContainsOpt n.text "a_b" || ciContainsOpt n.title "a_b"))).map briefDict)) := by
  intro h
  have hL : (get_notes_likeE c3cexWorld "a_b").1 = .ok [briefDict c3cexNote] := by
    simp [get_notes_likeE, withBearDb, c3cexWorld, c3cexNote, likeOpt, likeM, likePat, lowerA]
  have hR : ((c3cexWorld.store.filter (fun n =>
      !n.archived && (ciContainsOpt n.text "a_b" || ciContainsOpt n.title "a_b"))).map briefDict)
      = ([] : List PyVal) := rfl
  rw [hL, hR] at h
  simp [briefDict] at h

/-- Claim C4 (amended): provided the tag name holds no SQL `LIKE` wildcard,
`get_notes_by_tag` returns exactly the non-archived notes whose body
contains `#` + tag as an ASCII-case-insensitive substring (not an exact
one); and for every tag, every returned entry comes from a non-archived
note. -/
theorem get_notes_by_tag_spec (w : World) (tag : String) (hdb : w.dbErr = Option.none) :
    ((∀ c ∈ tag.toList, c ≠ '%' ∧ c ≠ '_') →
      (get_notes_by_tagE w tag).1
        = .ok ((w.store.filter (fun n =>
            !n.archived && ciContainsOpt n.text ("#" ++ tag))).map briefDict))
    ∧ ∀ v ∈ resultList (get_notes_by_tagE w tag).1,
        ∃ n ∈ w.store, n.archived = false ∧ v = briefDict n := by
  constructor
  · intro hp
    have hp2 : ∀ c ∈ ("#" ++ tag).toList, c ≠ '%' ∧ c ≠ '_' := by
      intro c hc
      rw [toList_append] at hc
      rcases List.mem_append.mp hc with h | h
      · rw [List.mem_singleton.mp h]; decide
      · exact hp c h
    simp only [get_notes_by_tagE, withBearDb, hdb]
    have heq : w.store.filter (fun n =>
        !n.archived && likeOpt (likePat ("#" ++ tag)) n.text)
      = w.store.filter (fun n => !n.archived && ciContainsOpt n.text ("#" ++ tag)) :=
      List.filter_congr (fun n _ => by rw [likeOpt_plain ("#" ++ tag) hp2])
    rw [heq]
  · intro v hv
    simp only [get_notes_by_tagE, withBearDb, hdb, resultList] at hv
    obtain ⟨n, hn, rfl⟩ := List.mem_map.mp hv
    obtain ⟨hnmem, hfilt⟩ := List.mem_filter.mp hn
    refine ⟨n, hnmem, ?_, rfl⟩
    have h2 := (Bool.and_eq_true _ _ |>.mp hfilt).1
    simpa using h2

/-- Witness for C4: the tag `work` finds the note whose body holds
`#work`. -/
theorem get_notes_by_tag_spec_witness :
    c4World.dbErr = Option.none
    ∧ (∀ c ∈ "work".toList, c ≠ '%' ∧ c ≠ '_')
    ∧ (get_notes_by_tagE c4World "work").1 = .ok [briefDict c4wNote] := by
  refine ⟨rfl, by decide, ?_⟩
  have h := (get_notes_by_tag_spec c4World "work" rfl).1 (by decide)
  rw [h]
  rfl

/-- Counterexample for C4 as stated: for tag `tag`, the note with body
`#TAG note` is returned (SQL `LIKE` matches case-insensitively) although
its body does not contain the literal substring `#tag`. -/
theorem get_notes_by_tag_cex :
    ¬ ((get_notes_by_tagE c4cexWorld "tag").1
      = .ok ((c4cexWorld.store.filter (fun n =>
          !n.archived && litContainsOpt n.text ("#" ++ "tag"))).map briefDict)) := by
  intro h
  have hL : (get_notes_by_tagE c4cexWorld "tag").1 = .ok [briefDict c4cexNote] := by
    simp [get_notes_by_tagE, withBearDb, c4cexWorld, c4cexNote, likeOpt, likeM, likePat, lowerA]
  have hR : ((c4cexWorld.store.filter (fun n =>
      !n.archived && litContainsOpt n.text ("#" ++ "tag"))).map briefDict)
      = ([] : List PyVal) := rfl
  rw [hL, hR] at h
  simp [briefDict] at h

/-- Claim C5: under the store invariant that identities are unique,
`get_note_by_id` returns the note whose identity matches, as a dictionary
carrying the archived flag and the modification timestamp (both absent
from the list variants' dictionaries), and returns `None` without raising
for any identity not in the store. -/
theorem get_note_by_id_spec (w : World) (idv : String)
    (hdb : w.dbErr = Option.none)
    (huniq : ∀ n ∈ w.store, ∀ m ∈ w.store, n.id = m.id → n = m) :
    ((∀ n ∈ w.store, n.id ≠ idv) → (get_note_by_idE w idv).1 = .ok Option.none)
    ∧ ∀ n ∈ w.store, n.id = idv →
        (get_note_by_idE w idv).1 = .ok (some (fullDict n))
        ∧ dictGet (fullDict n) "ZARCHIVED" = some (.int (if n.archived then 1 else 0))
        ∧ dictGet (fullDict n) "ZMODIFICATIONDATE" = some (.int n.modificationDate)
        ∧ dictGet (briefDict n) "ZARCHIVED" = Option.none
        ∧ dictGet (briefDict n) "ZMODIFICATIONDATE" = Option.none := by
  constructor
  · intro habs
    simp only [get_note_by_idE, withBearDb, hdb]
    have hfind : w.store.find? (fun n => n.id == idv) = Option.none :=
      List.find?_eq_none.mpr (fun n hn => by simp [habs n hn])
    rw [hfind]
    rfl
  · intro n hn hid
    refine ⟨?_, by simp +decide [dictGet, fullDict, List.find?],
      by simp +decide [dictGet, fullDict, List.find?],
      by simp +decide [dictGet, briefDict, List.find?],
      by simp +decide [dictGet, briefDict, List.find?]⟩
    simp only [get_note_by_idE, withBearDb, hdb]
    cases hfind : w.store.find? (fun m => m.id == idv) with
    | none =>
      have := List.find?_eq_none.mp hfind n hn
      simp [hid] at this
    | some m =>
      have hm1 : m.id = idv := by
        have := List.find?_some hfind
        simpa using this
      have hm2 := List.mem_of_find?_eq_some hfind
      have hmn : m = n := huniq m hm2 n hn (by rw [hm1, hid])
      rw [hmn]
      rfl

/-- Witness for C5: the archived fixture note is found with its archived
flag and modification timestamp; a missing identity yields `None`. -/
theorem get_note_by_id_spec_witness :
    c5World.dbErr = Option.none
    ∧ (get_note_by_idE c5World "id1").1 = .ok (some (fullDict c5Note))
    ∧ (get_note_by_idE c5World "missing").1 = .ok Option.none := by
  have huniq : ∀ n ∈ c5World.store, ∀ m ∈ c5World.store, n.id = m.id → n = m := by
    intro n hn m hm _
    rw [List.mem_singleton.mp hn, List.mem_singleton.mp hm]
  refine ⟨rfl, ?_, ?_⟩
  · exact ((get_note_by_id_spec c5World "id1" rfl huniq).2 c5Note (by simp [c5World]) rfl).1
  · exact (get_note_by_id_spec c5World "missing" rfl huniq).1
      (by intro n hn; rw [List.mem_singleton.mp hn]; decide)

/-- Claim C6: the URI `add_text` builds for id `abc`, text `hi`, mode
`append` and `open_note` left false decodes to exactly the parameter map
id/text/mode, with no additional keys. -/
theorem add_text_uri_roundtrip :
    parseQuery (queryOf (addTextUrl "abc" "hi" "append" false))
      = [("id", "abc"), ("text", "hi"), ("mode", "append")] := by decide

/-- Claim C7 (amended): creating a note with tags `a`, `b` produces the
query string `tags=a%2Cb` — one `tags` key whose percent-decoded value is
the comma-join `a,b`, not repeated keys. -/
theorem create_note_tags_comma_joined :
    queryOf (createNoteUrl Option.none Option.none (some ["a", "b"]) false false) = "tags=a%2Cb"
    ∧ parseQuery (queryOf (createNoteUrl Option.none Option.none (some ["a", "b"]) false false))
        = [("tags", "a,b")] := by
  exact ⟨by decide, by decide⟩

/-- Counterexample for C7 as stated: the produced query string does not
contain `tags=a,b` — the comma is percent-encoded to `%2C`. -/
theorem create_note_tags_cex :
    containsStrB (queryOf (createNoteUrl Option.none Option.none (some ["a", "b"]) false false))
      "tags=a,b" = false := by decide

/-- Claim C8: for every name outside the registry, the dispatcher yields
the failure response naming the unknown operation, with an empty effect
trace — no executor runs, no query, no spawn. -/
theorem call_tool_unknown (w : World) (args : Option ArgMap) (name : String)
    (h : name ∉ toolNames) :
    call_tool w name args = (.error ("Unknown tool: " ++ name), [])
    ∧ containsStrB ("Unknown tool: " ++ name) name = true := by
  simp only [toolNames, List.mem_cons, not_or, List.not_mem_nil] at h
  refine ⟨?_, ?_⟩
  · simp only [call_tool, if_neg h.1, if_neg h.2.1, if_neg h.2.2.1, if_neg h.2.2.2.1,
      if_neg h.2.2.2.2.1, if_neg h.2.2.2.2.2.1, if_neg h.2.2.2.2.2.2.1,
      if_neg h.2.2.2.2.2.2.2.1, if_neg h.2.2.2.2.2.2.2.2.1,
      if_neg h.2.2.2.2.2.2.2.2.2.1, if_neg h.2.2.2.2.2.2.2.2.2.2.1,
      if_neg h.2.2.2.2.2.2.2.2.2.2.2.1, if_neg h.2.2.2.2.2.2.2.2.2.2.2.2.1,
      if_neg h.2.2.2.2.2.2.2.2.2.2.2.2.2.1, if_neg h.2.2.2.2.2.2.2.2.2.2.2.2.2.2.1,
      if_neg h.2.2.2.2.2.2.2.2.2.2.2.2.2.2.2.1]
  · rw [containsStrB_iff]
    exact ⟨"Unknown tool: ".toList, [], by simp [toList_append]⟩

/-- Witness for C8: an unregistered name. -/
theorem call_tool_unknown_witness :
    ("frobnicate" ∉ toolNames)
    ∧ call_tool ⟨[], [], Option.none, .ok⟩ "frobnicate" Option.none
        = (.error ("Unknown tool: " ++ "frobnicate"), []) := by
  have h := call_tool_unknown ⟨[], [], Option.none, .ok⟩ Option.none "frobnicate" (by decide)
  exact ⟨by decide, h.1⟩

/-- Claim C9: every Data Reader operation opens exactly one store
connection, closes exactly one, closes it as the final step of its trace on
every exit path (including the path where the query raises), and its trace
holds no subprocess spawn — no other external side effect. -/
theorem readers_scoped (w : World) (x idv tg : String) :
    scopedTrace (get_notesE w).2 ∧ scopedTrace (get_notes_likeE w x).2
    ∧ scopedTrace (get_tagsE w).2 ∧ scopedTrace (get_note_by_idE w idv).2
    ∧ scopedTrace (get_notes_by_tagE w tg).2 ∧ scopedTrace (get_archived_notesE w).2 :=
  ⟨withBearDb_scoped _ w _, withBearDb_scoped _ w _, withBearDb_scoped _ w _,
   withBearDb_scoped _ w _, withBearDb_scoped _ w _, withBearDb_scoped _ w _⟩

/-- Claim C10: `create_note` omits every falsy argument from its parameter
dict — an absent or empty title/text, an absent or empty tag list, and a
false flag contribute no key, while a true `pin`/`open_note` serializes as
`yes`; in particular the URI built for an empty-string title carries no
query parameters at all. -/
theorem create_note_omits_falsy (title text : Option String)
    (tags : Option (List String)) (pin opn : Bool) :
    lookupParam (createNoteParams title text tags pin opn) "title"
      = title.bind (fun t => if t = "" then Option.none else some t)
    ∧ lookupParam (createNoteParams title text tags pin opn) "text"
      = text.bind (fun t => if t = "" then Option.none else some t)
    ∧ lookupParam (createNoteParams title text tags pin opn) "tags"
      = tags.bind (fun l => if l = [] then Option.none else some (String.intercalate "," l))
    ∧ lookupParam (createNoteParams title text tags pin opn) "pin"
      = (if pin then some "yes" else Option.none)
    ∧ lookupParam (createNoteParams title text tags pin opn) "open_note"
      = (if opn then some "yes" else Option.none)
    ∧ parseQuery (queryOf (createNoteUrl (some "") Option.none Option.none false false)) = [] := by
  refine ⟨?_, ?_, ?_, ?_, ?_, by decide⟩ <;>
  · rcases title with _ | t <;> rcases text with _ | x <;> rcases tags with _ | l <;>
      rcases pin <;> rcases opn <;>
      simp only [createNoteParams, optParam, listParam, flagParam, Option.bind] <;>
      split_ifs <;>
      simp_all [lookupParam, List.find?]

end McpBear
